import Mathlib

/-! # Linux-Programming-Interface, Section 3: two demonstration programs

* `SyscallErrors` embeds
  `Section-3/3.4.1_Handling-Errors-from-Syscall/src/syscall-errors.c`;
* `DetectingLibcVersion` embeds
  `Section-3/3.3_Determining_Glibc_Version/detecting-libc-version.c`.

Both programs are straight-line C with branches on the values returned by libc.
The embedding threads the process state (the value of `errno` and the trace of
observable events) through every statement.  What libc and the kernel answer is
not decided by the programs, so it is an explicit parameter: the environment
gives, for every source line that holds a library call, the value the call
returns and the value it stores in `errno` (if it stores one).  Every source
line of the programs is executed at most once, so keying the environment by
line number identifies the call.

The C values of type `int`, `pid_t` and `ssize_t` are integers of `Int`: the
programs do no arithmetic on them, they compare them with constants and print
them.  The one conversion between integer types, of the `size_t` that `confstr`
returns to `long size` in the version probe, is modelled with its wrap-around,
and the probe's variable-length array and `%s` of that array give a fault where
C leaves the behaviour undefined.
-/

namespace SyscallErrors

/-- Values of the `<errno.h>` constants that `syscall-errors.c` names.  The header
is not part of the repository, so the numbers are a parameter.  C rejects a
`switch` with two equal `case` labels, hence the two distinctness fields. -/
structure ErrnoH where
  EBADF : Int
  EINTR : Int
  ENOENT : Int
  EACCES : Int
  EINVAL : Int
  read_labels : EBADF ≠ EINTR
  open_labels : ENOENT ≠ EACCES

/-- The values of the constants on Linux. -/
def linux : ErrnoH := ⟨9, 4, 2, 13, 22, by decide, by decide⟩

/-- What one library call does: the value it returns and the value it stores in
`errno` (`none` when the call leaves `errno` alone). -/
structure Outcome where
  ret : Int
  err : Option Int

/-- The environment of one run of the demo.  `call n` is the outcome of the
library call made by the statement at source line `n`; for a `printf` or
`perror` statement only its `errno` store matters (the program discards what
they return), and a statement such as `printf(..., strerror(errno))` counts as
one call whose arguments are read first.  `strerror` is the message libc has
for an error number;
`strerror_r errnum` is what a 128-byte buffer that started empty holds after
`strerror_r(errnum, buf, sizeof(buf))`. -/
structure Env where
  call : Nat → Outcome
  strerror : Int → String
  strerror_r : Int → String

/-- An argument passed to `printf` after the format string. -/
inductive Arg where
  | int (n : Int)
  | str (s : String)
  deriving DecidableEq, Repr

/-- Observable events of a run: text handed to `printf` (format string and
argument values), `perror` (prefix and the `errno` it reads), and the system
calls with their arguments and returned values. -/
inductive Event where
  | printf (fmt : String) (args : List Arg)
  | perror (s : String) (errnum : Int)
  | sysGetpid (ret : Int)
  | sysGetppid (ret : Int)
  | sysGetpriority (ret : Int)
  | sysOpen (path : String) (ret : Int)
  | sysWrite (fd : Int) (text : String) (ret : Int)
  | sysRead (fd : Int) (count : Nat) (ret : Int)
  | sysClose (fd : Int)
  | strerror_r (errnum : Int) (buflen : Nat)
  deriving DecidableEq, Repr

/-- Process state: the current value of `errno` and the events so far. -/
structure Proc where
  errno : Int
  trace : List Event

/-- One statement that calls into libc: the event is recorded and `errno` takes
the value the call stores, or keeps its value when the call stores none. -/
def libc (env : Env) (line : Nat) (ev : Event) (p : Proc) : Proc :=
  ⟨((env.call line).err).getD p.errno, p.trace ++ [ev]⟩

/-- The assignment `errno = v;`. -/
def setErrno (v : Int) (p : Proc) : Proc := ⟨v, p.trace⟩

/-- Source lines 29-34. -/
def section_1_getpid (env : Env) (p : Proc) : Proc :=
  let p := libc env 31 (.printf "\n=== 1) getpid() ===\n" []) p
  let pid := (env.call 32).ret
  let p := libc env 32 (.sysGetpid pid) p
  libc env 33 (.printf "getpid() -> %d\n" [.int pid]) p

/-- Source lines 40-67. -/
def section_2_open (env : Env) (p : Proc) : Proc :=
  let p := libc env 42 (.printf "\n=== 2) open() success then failure ===\n" []) p
  let okfile := "build/demo_open_ok.txt"
  let fd := (env.call 45).ret
  let p := libc env 45 (.sysOpen okfile fd) p
  let p :=
    if fd ≥ 0 then
      let text := "demo: write OK\n"
      let w := (env.call 48).ret
      let p := libc env 48 (.sysWrite fd text w) p
      let p :=
        if w < 0 then
          libc env 50 (.printf "write() returned -1, errno=%d\n" [.int p.errno]) p
        else
          libc env 52 (.printf "created and wrote to '%s' (fd=%d, bytes=%zd)\n"
            [.str okfile, .int fd, .int w]) p
      libc env 54 (.sysClose fd) p
    else
      libc env 56 (.printf "open('%s') failed: errno=%d\n" [.str okfile, .int p.errno]) p
  let nofile := "definitely_not_existing_file_12345.txt"
  let fd2 := (env.call 60).ret
  let p := libc env 60 (.sysOpen nofile fd2) p
  if fd2 < 0 then
    libc env 62 (.printf "open('%s') failed: returned -1, errno=%d\n"
      [.str nofile, .int p.errno]) p
  else
    let p := libc env 64 (.printf "unexpectedly opened '%s' (fd=%d)\n"
      [.str nofile, .int fd2]) p
    libc env 65 (.sysClose fd2) p

/-- Source lines 74-117. -/
def section_3_errno_switch (h : ErrnoH) (env : Env) (p : Proc) : Proc :=
  let p := libc env 76 (.printf "\n=== 3) error-number handling with switch ===\n" []) p
  let r := (env.call 79).ret
  let p := libc env 79 (.sysRead (-1) 8 r) p
  let p :=
    if r < 0 then
      let e := p.errno
      let p := libc env 82 (.printf "read(-1,...) returned -1, errno=%d\n" [.int e]) p
      if e = h.EBADF then
        libc env 85 (.printf "  EBADF: bad file descriptor\n" []) p
      else if e = h.EINTR then
        libc env 88 (.printf "  EINTR: interrupted system call\n" []) p
      else
        libc env 91 (.printf "  Other errno: %d\n" [.int e]) p
    else
      libc env 95 (.printf "read(-1,...) unexpectedly succeeded\n" []) p
  let fd := (env.call 98).ret
  let p := libc env 98 (.sysOpen "nonexistent_file_for_demo_9999.txt" fd) p
  if fd < 0 then
    let e := p.errno
    let p := libc env 101 (.printf "open(nonexistent) returned -1, errno=%d\n" [.int e]) p
    if e = h.ENOENT then
      libc env 104 (.printf "  ENOENT: no such file or directory\n" []) p
    else if e = h.EACCES then
      libc env 107 (.printf "  EACCES: permission denied\n" []) p
    else
      libc env 110 (.printf "  Other errno: %d\n" [.int e]) p
  else
    let p := libc env 114 (.sysClose fd) p
    libc env 115 (.printf "open(nonexistent) unexpectedly succeeded\n" []) p

/-- Source lines 123-131. -/
def section_4_errno_not_cleared (h : ErrnoH) (env : Env) (p : Proc) : Proc :=
  let p := libc env 125 (.printf "\n=== 4) successful syscall does NOT clear errno ===\n" []) p
  let p := setErrno h.EINVAL p
  let p := libc env 127 (.printf "errno set to %d BEFORE calling getppid()\n" [.int p.errno]) p
  let p := libc env 128 (.sysGetppid (env.call 128).ret) p
  let p := libc env 129
    (.printf "after getppid(), errno still = %d (not cleared by success)\n" [.int p.errno]) p
  libc env 130 (.printf "=> always check the syscall return value, not errno alone\n" []) p

/-- Source lines 137-147. -/
def section_5_getpriority (env : Env) (p : Proc) : Proc :=
  let p := libc env 139
    (.printf "\n=== 5) getpriority() (negative valid values possible) ===\n" []) p
  let p := setErrno 0 p
  let pr := (env.call 141).ret
  let p := libc env 141 (.sysGetpriority pr) p
  if pr = -1 ∧ p.errno ≠ 0 then
    libc env 143 (.printf "getpriority() returned -1 and errno=%d -> real error\n"
      [.int p.errno]) p
  else
    libc env 145 (.printf "getpriority() -> %d (valid result)\n" [.int pr]) p

/-- Source lines 153-179. -/
def section_6_perror_strerror (h : ErrnoH) (env : Env) (p : Proc) : Proc :=
  let p := libc env 155
    (.printf "\n=== 6) perror / strerror demo and Unknown error case ===\n" []) p
  let fd := (env.call 157).ret
  let p := libc env 157 (.sysOpen "/proc/this_path_does_not_exist_for_demo" fd) p
  let p :=
    if fd < 0 then
      let p := libc env 159 (.perror "perror: open failed" p.errno) p
      libc env 160 (.printf "strerror(errno) -> %s\n" [.str (env.strerror p.errno)]) p
    else
      libc env 162 (.sysClose fd) p
  let p := libc env 165 (.printf "\nstrerror(ENOENT) -> %s\n" [.str (env.strerror h.ENOENT)]) p
  let bogus : Int := 99999
  let p := libc env 168
    (.printf "strerror(%d) -> %s\n" [.int bogus, .str (env.strerror bogus)]) p
  let p := libc env 172 (.strerror_r h.ENOENT 128) p
  let buf := env.strerror_r h.ENOENT
  if buf ≠ "" then
    libc env 174 (.printf "strerror_r(ENOENT) -> %s\n" [.str buf]) p
  else
    libc env 177
      (.printf "strerror_r left buf empty, fallback -> %s\n" [.str (env.strerror h.ENOENT)]) p

/-- Source lines 182-195: the returned pair is the exit status and the final
process state. -/
def main (h : ErrnoH) (env : Env) (p : Proc) : Int × Proc :=
  let p := libc env 184 (.printf "Simple syscall error-handling demo (final)\n" []) p
  let p := section_1_getpid env p
  let p := section_2_open env p
  let p := section_3_errno_switch h env p
  let p := section_4_errno_not_cleared h env p
  let p := section_5_getpriority env p
  let p := section_6_perror_strerror h env p
  let p := libc env 193 (.printf "\nEnd\n" []) p
  (0, p)

/-- The POSIX contract of a call that reports failure through a negative return
value (`open`, `read`, `write`): when it returns a negative value it has stored
an error number in `errno`. -/
def Outcome.failureStoresErrno (o : Outcome) : Prop :=
  o.ret < 0 → o.err.isSome = true

instance (o : Outcome) : Decidable o.failureStoresErrno := by
  unfold Outcome.failureStoresErrno
  infer_instance

/-- Descriptor bookkeeping along a trace.  `held` lists the descriptors that are
open at this point.  An `open` that returns a non-negative descriptor adds it, a
`close` must be of a held descriptor and releases it, and at the end of the
trace nothing may be held.  So the result is `true` exactly when no `close` hits
a descriptor that is not open (never opened, or closed before) and no
descriptor is still open at the end. -/
def fdBalanced : List Int → List Event → Bool
  | held, [] => held.isEmpty
  | held, Event.sysOpen _ fd :: t =>
      if fd ≥ 0 then fdBalanced (fd :: held) t else fdBalanced held t
  | held, Event.sysClose fd :: t =>
      if fd ∈ held then fdBalanced (held.erase fd) t else false
  | held, _ :: t => fdBalanced held t

/-- A run in which every call that can fail does fail with `ENOENT` (2), except
that the `read` on descriptor -1 fails with `EBADF` (9); `getpid` and `getppid`
return process numbers. -/
def envFailing : Env where
  call := fun n =>
    if n = 32 then ⟨4242, none⟩
    else if n = 128 then ⟨4241, none⟩
    else if n = 79 then ⟨-1, some 9⟩
    else if n = 141 then ⟨0, none⟩
    else if n = 45 ∨ n = 48 ∨ n = 60 ∨ n = 98 ∨ n = 157 then ⟨-1, some 2⟩
    else ⟨0, none⟩
  strerror := fun e => if e = 2 then "No such file or directory" else "Unknown error"
  strerror_r := fun e => if e = 2 then "No such file or directory" else "Unknown error"

/-- A run in which `build/demo_open_ok.txt` is created as descriptor 3 and the
15 bytes are written; every other call behaves as in `envFailing`. -/
def envWriteOk : Env where
  call := fun n =>
    if n = 45 then ⟨3, none⟩
    else if n = 48 then ⟨15, none⟩
    else envFailing.call n
  strerror := envFailing.strerror
  strerror_r := envFailing.strerror_r

/-- A run in which `build/demo_open_ok.txt` is created as descriptor 3 but the
`write` fails with `ENOSPC` (28); every other call behaves as in `envFailing`. -/
def envWriteFails : Env where
  call := fun n =>
    if n = 45 then ⟨3, none⟩
    else if n = 48 then ⟨-1, some 28⟩
    else envFailing.call n
  strerror := envFailing.strerror
  strerror_r := envFailing.strerror_r

/-- A run in which the process has no free descriptor left, so the `open` of
`nonexistent_file_for_demo_9999.txt` at line 98 fails with `EMFILE` (24); every
other call behaves as in `envFailing`. -/
def envEmfile : Env where
  call := fun n => if n = 98 then ⟨-1, some 24⟩ else envFailing.call n
  strerror := envFailing.strerror
  strerror_r := envFailing.strerror_r

end SyscallErrors

namespace DetectingLibcVersion

/-- What the platform supplies to one run of the probe.

* `GLIBC` and `GLIBC_MINOR` are the macros `__GLIBC__` and `__GLIBC_MINOR__` of
  `<features.h>`.
* `gnu_get_libc_version` is the text of the string that function returns (the
  characters before its terminating NUL, hence free of NUL).
* `LONG_BIT` is the width of `long`; on the ABIs of glibc `size_t` has the same
  width, so a `size_t` is a number below `2 ^ LONG_BIT`.
* `confstr_size` is the `size_t` that `confstr(_CS_GNU_LIBC_VERSION, NULL, 0)`
  returns.
* `stack_avail` is the number of bytes the stack can still take where `buffer`
  is declared.
* `confstr_fill n` lists the bytes that `confstr(_CS_GNU_LIBC_VERSION, buffer, n)`
  wrote at the start of the `n`-byte buffer; the bytes of the buffer after them
  were never written. -/
structure Env where
  GLIBC : Int
  GLIBC_MINOR : Int
  gnu_get_libc_version : List Nat
  version_nul_free : ∀ b ∈ gnu_get_libc_version, b ≠ 0
  LONG_BIT : Nat
  confstr_size : Nat
  confstr_size_lt : confstr_size < 2 ^ LONG_BIT
  stack_avail : Nat
  confstr_fill : Nat → List Nat

/-- The ways in which a run of the probe has no defined result. -/
inductive Fault where
  /-- The declaration `char buffer[size]` with a negative `size`: undefined behaviour. -/
  | negativeArrayBound
  /-- The array `char buffer[size]` does not fit on the stack: the process is killed. -/
  | stackOverflow
  /-- No NUL among the bytes written into `buffer`: `printf` reads bytes that
  were never written, or bytes past the end of the buffer. -/
  | unterminatedString
  deriving DecidableEq, Repr

/-- The conversion of an unsigned number to the signed type `long` of the same
width `bits` (two's complement), as in `long size = confstr(...)`. -/
def toLong (bits n : Nat) : Int :=
  if n % 2 ^ bits < 2 ^ (bits - 1) then ((n % 2 ^ bits : Nat) : Int)
  else ((n % 2 ^ bits : Nat) : Int) - ((2 ^ bits : Nat) : Int)

/-- The C string held in a byte array, which is what `printf` prints for `%s`:
the bytes before the first NUL, and nothing when the array holds no NUL. -/
def cstr (bytes : List Nat) : Option (List Nat) :=
  if 0 ∈ bytes then some (bytes.takeWhile (fun b => b ≠ 0)) else none

/-- An argument passed to `printf` after the format string. -/
inductive Arg where
  | int (n : Int)
  | str (s : List Nat)
  deriving DecidableEq, Repr

/-- The only observable events of the probe are its `printf` calls. -/
inductive Event where
  | printf (fmt : String) (args : List Arg)
  deriving DecidableEq, Repr

/-- Source lines 8-33.  A run that reaches `return 0` gives the exit status and
the output; a run that leaves defined behaviour gives the fault.  The `size_t`
returned by `confstr` is converted to `long size`; `char buffer[size]` needs a
positive `size` that the stack can take; the second `confstr` call gets `size`
back as the buffer length, and `printf` prints the buffer up to its first NUL. -/
def main (env : Env) : Except Fault (Int × List Event) :=
  let out : List Event :=
    if env.GLIBC ≠ 0 then
      [.printf "Libc version (compile-time) detected by __GLIBC__ is : %d.%d\n"
        [.int env.GLIBC, .int env.GLIBC_MINOR]]
    else
      [.printf "This program has not been compiled with glibc" []]
  let out := out ++
    [.printf "Libc version (runtime) detected by gnu_get_libc_version is : %s \n"
      [.str env.gnu_get_libc_version]]
  let size : Int := toLong env.LONG_BIT env.confstr_size
  let printed : Except Fault (List Event) :=
    if size = 0 then
      .ok (out ++ [.printf "This system is not using glibc \n" []])
    else if size < 0 then
      .error Fault.negativeArrayBound
    else if (env.stack_avail : Int) < size then
      .error Fault.stackOverflow
    else
      let buffer := (env.confstr_fill size.toNat).take size.toNat
      match cstr buffer with
      | none => .error Fault.unterminatedString
      | some s =>
        .ok (out ++ [.printf "Libc version (runtime) detected by confstr() is : %s \n"
          [.str s]])
  match printed with
  | .error f => .error f
  | .ok out => .ok (0, out)

/-- A 64-bit system whose configuration string for the version is the empty
string: `confstr` reports size 1 (the terminating NUL alone) and writes that NUL
into the one-byte buffer. -/
def envEmptyVersion : Env where
  GLIBC := 2
  GLIBC_MINOR := 39
  gnu_get_libc_version := [50, 46, 51, 57]
  version_nul_free := by decide
  LONG_BIT := 64
  confstr_size := 1
  confstr_size_lt := by decide
  stack_avail := 8388608
  confstr_fill := fun _ => [0]

/-- A 64-bit glibc 2.39 system: `confstr` reports size 11 and writes `glibc 2.39`
and the terminating NUL into the buffer. -/
def envGlibc : Env where
  GLIBC := 2
  GLIBC_MINOR := 39
  gnu_get_libc_version := [50, 46, 51, 57]
  version_nul_free := by decide
  LONG_BIT := 64
  confstr_size := 11
  confstr_size_lt := by decide
  stack_avail := 8388608
  confstr_fill := fun _ => [103, 108, 105, 98, 99, 32, 50, 46, 51, 57, 0]

/-- A 64-bit system on which `confstr` reports that no configuration string is
defined (size 0). -/
def envNoGlibc : Env where
  GLIBC := 2
  GLIBC_MINOR := 39
  gnu_get_libc_version := [50, 46, 51, 57]
  version_nul_free := by decide
  LONG_BIT := 64
  confstr_size := 0
  confstr_size_lt := by decide
  stack_avail := 8388608
  confstr_fill := fun _ => []

/-- A 64-bit system on which `confstr` reports a size of `2 ^ 63`, which is
negative as a `long`. -/
def envNegativeSize : Env where
  GLIBC := 2
  GLIBC_MINOR := 39
  gnu_get_libc_version := [50, 46, 51, 57]
  version_nul_free := by decide
  LONG_BIT := 64
  confstr_size := 9223372036854775808
  confstr_size_lt := by decide
  stack_avail := 8388608
  confstr_fill := fun _ => [0]

/-- A 64-bit system with 8 MiB of stack on which `confstr` reports a size of
16 MiB. -/
def envHugeSize : Env where
  GLIBC := 2
  GLIBC_MINOR := 39
  gnu_get_libc_version := [50, 46, 51, 57]
  version_nul_free := by decide
  LONG_BIT := 64
  confstr_size := 16777216
  confstr_size_lt := by decide
  stack_avail := 8388608
  confstr_fill := fun _ => [0]

/-- A 64-bit system on which the second `confstr` call writes nothing into the
four-byte buffer. -/
def envNoFill : Env where
  GLIBC := 2
  GLIBC_MINOR := 39
  gnu_get_libc_version := [50, 46, 51, 57]
  version_nul_free := by decide
  LONG_BIT := 64
  confstr_size := 4
  confstr_size_lt := by decide
  stack_avail := 8388608
  confstr_fill := fun _ => []

end DetectingLibcVersion

namespace SyscallErrors

/-! ## Section 5: `getpriority` -/

/-- C1: in `section_5_getpriority`, with `pr` the value `getpriority` returns and
`e` the value of `errno` after the call (`errno` was set to 0 right before it, so
`e` is what the call stored, or 0), the step prints the "real error" message
exactly when `pr = -1` and `e ≠ 0`, and in every other case it prints the
"valid result" message carrying `pr`. -/
theorem section_5_real_error_iff (env : Env) (p : Proc) :
    (section_5_getpriority env p).trace = p.trace ++
      [Event.printf "\n=== 5) getpriority() (negative valid values possible) ===\n" [],
       Event.sysGetpriority (env.call 141).ret,
       if (env.call 141).ret = -1 ∧ ((env.call 141).err).getD 0 ≠ 0 then
         Event.printf "getpriority() returned -1 and errno=%d -> real error\n"
           [Arg.int (((env.call 141).err).getD 0)]
       else
         Event.printf "getpriority() -> %d (valid result)\n" [Arg.int (env.call 141).ret]] ∧
    ((∃ x, Event.printf "getpriority() returned -1 and errno=%d -> real error\n" [Arg.int x]
        ∈ (section_5_getpriority env ⟨p.errno, []⟩).trace) ↔
      ((env.call 141).ret = -1 ∧ ((env.call 141).err).getD 0 ≠ 0)) ∧
    (Event.printf "getpriority() -> %d (valid result)\n" [Arg.int (env.call 141).ret]
        ∈ (section_5_getpriority env ⟨p.errno, []⟩).trace ↔
      ¬ ((env.call 141).ret = -1 ∧ ((env.call 141).err).getD 0 ≠ 0)) := by
  refine ⟨?_, ?_, ?_⟩
  · simp only [section_5_getpriority, libc, setErrno]
    split_ifs <;> simp
  · simp only [section_5_getpriority, libc, setErrno]
    split_ifs with hc <;> simp [hc]
  · simp only [section_5_getpriority, libc, setErrno]
    split_ifs with hc <;> simp [hc]

/-- Witness of C1 on a run where `getpriority` returns the valid priority -1 and
stores nothing in `errno`: the "valid result" line carrying -1 is printed. -/
theorem section_5_real_error_iff_witness :
    (section_5_getpriority ⟨fun _ => ⟨-1, none⟩, fun _ => "", fun _ => ""⟩ ⟨22, []⟩).trace =
      [Event.printf "\n=== 5) getpriority() (negative valid values possible) ===\n" [],
       Event.sysGetpriority (-1),
       Event.printf "getpriority() -> %d (valid result)\n" [Arg.int (-1)]] :=
  (section_5_real_error_iff ⟨fun _ => ⟨-1, none⟩, fun _ => "", fun _ => ""⟩ ⟨22, []⟩).1

/-! ## Section 3: classification of `errno` -/

/-- C4: in `section_3_errno_switch`, assuming `read(-1, ...)` returns -1 with
`errno == EBADF`, the events between the header and the `open` of the second
example are exactly the `read`, the line with the numeric `errno` and the
"EBADF: bad file descriptor" line; neither the `EINTR` line nor the
"unexpectedly succeeded" line of the `read` is printed, and no "Other errno" line
is printed for the `read`. -/
theorem section_3_read_ebadf (h : ErrnoH) (env : Env) (p : Proc)
    (hret : (env.call 79).ret = -1) (herr : (env.call 79).err = some h.EBADF) :
    (∃ rest, (section_3_errno_switch h env p).trace = p.trace ++
      [Event.printf "\n=== 3) error-number handling with switch ===\n" [],
       Event.sysRead (-1) 8 (-1),
       Event.printf "read(-1,...) returned -1, errno=%d\n" [Arg.int h.EBADF],
       Event.printf "  EBADF: bad file descriptor\n" [],
       Event.sysOpen "nonexistent_file_for_demo_9999.txt" (env.call 98).ret] ++ rest) ∧
    Event.printf "  EINTR: interrupted system call\n" []
      ∉ (section_3_errno_switch h env ⟨p.errno, []⟩).trace ∧
    Event.printf "read(-1,...) unexpectedly succeeded\n" []
      ∉ (section_3_errno_switch h env ⟨p.errno, []⟩).trace := by
  refine ⟨?_, ?_, ?_⟩
  · simp [section_3_errno_switch, libc, hret, herr]
    split_ifs <;> simp
  · simp [section_3_errno_switch, libc, hret, herr]
    split_ifs <;> simp
  · simp [section_3_errno_switch, libc, hret, herr]
    split_ifs <;> simp

/-- Witness of C4 on the run `envFailing` with the Linux constants. -/
theorem section_3_read_ebadf_witness :
    (∃ rest, (section_3_errno_switch linux envFailing ⟨0, []⟩).trace = [] ++
      [Event.printf "\n=== 3) error-number handling with switch ===\n" [],
       Event.sysRead (-1) 8 (-1),
       Event.printf "read(-1,...) returned -1, errno=%d\n" [Arg.int 9],
       Event.printf "  EBADF: bad file descriptor\n" [],
       Event.sysOpen "nonexistent_file_for_demo_9999.txt" (-1)] ++ rest) ∧
    Event.printf "  EINTR: interrupted system call\n" []
      ∉ (section_3_errno_switch linux envFailing ⟨0, []⟩).trace ∧
    Event.printf "read(-1,...) unexpectedly succeeded\n" []
      ∉ (section_3_errno_switch linux envFailing ⟨0, []⟩).trace :=
  section_3_read_ebadf linux envFailing ⟨0, []⟩ (by decide) (by decide)


/-- The end of the trace of `section_3_errno_switch` when its `open` fails
leaving `errno = e`: the `open`, the line with the number, one bucket line. -/
theorem section_3_open_suffix (h : ErrnoH) (env : Env) (p : Proc) (e : Int) :
    (env.call 98).ret < 0 → (env.call 98).err = some e →
      ∃ pre b, (section_3_errno_switch h env p).trace = pre ++
        [Event.sysOpen "nonexistent_file_for_demo_9999.txt" (env.call 98).ret,
         Event.printf "open(nonexistent) returned -1, errno=%d\n" [Arg.int e],
         b] ∧
        ((e = h.ENOENT ∧ b = Event.printf "  ENOENT: no such file or directory\n" []) ∨
         (e = h.EACCES ∧ b = Event.printf "  EACCES: permission denied\n" []) ∨
         (e ≠ h.ENOENT ∧ e ≠ h.EACCES ∧ b = Event.printf "  Other errno: %d\n" [Arg.int e])) := by
  intro hret herr
  have hrev : ∃ b pre, (section_3_errno_switch h env p).trace.reverse =
      b :: Event.printf "open(nonexistent) returned -1, errno=%d\n" [Arg.int e] ::
        Event.sysOpen "nonexistent_file_for_demo_9999.txt" (env.call 98).ret :: pre ∧
      ((e = h.ENOENT ∧ b = Event.printf "  ENOENT: no such file or directory\n" []) ∨
       (e = h.EACCES ∧ b = Event.printf "  EACCES: permission denied\n" []) ∨
       (e ≠ h.ENOENT ∧ e ≠ h.EACCES ∧ b = Event.printf "  Other errno: %d\n" [Arg.int e])) := by
    simp only [section_3_errno_switch, libc, hret, herr, Option.getD_some]
    split_ifs <;> simp_all
  obtain ⟨b, pre, hb, hcase⟩ := hrev
  refine ⟨pre.reverse, b, ?_, hcase⟩
  have hb2 := congrArg List.reverse hb
  simpa using hb2

/-- C9: the two classifications of `section_3_errno_switch` are total and
single-valued.  When the `read` fails leaving `errno = e`, exactly one bucket
line `b` stands between the line with the numeric `errno` and the `open` of the
second example: the `EBADF` line when `e = EBADF`, the `EINTR` line when
`e = EINTR`, and otherwise the "Other errno" line carrying `e`.  When the `open`
fails leaving `errno = e`, the section ends with exactly one bucket line after
the line with the numeric `errno`: the `ENOENT` line when `e = ENOENT`, the
`EACCES` line when `e = EACCES`, and otherwise the "Other errno" line carrying
`e`. -/
theorem section_3_classification (h : ErrnoH) (env : Env) (p : Proc) (e : Int) :
    ((env.call 79).ret < 0 → (env.call 79).err = some e →
      ∃ b rest, (section_3_errno_switch h env p).trace = p.trace ++
        [Event.printf "\n=== 3) error-number handling with switch ===\n" [],
         Event.sysRead (-1) 8 (env.call 79).ret,
         Event.printf "read(-1,...) returned -1, errno=%d\n" [Arg.int e],
         b,
         Event.sysOpen "nonexistent_file_for_demo_9999.txt" (env.call 98).ret] ++ rest ∧
        ((e = h.EBADF ∧ b = Event.printf "  EBADF: bad file descriptor\n" []) ∨
         (e = h.EINTR ∧ b = Event.printf "  EINTR: interrupted system call\n" []) ∨
         (e ≠ h.EBADF ∧ e ≠ h.EINTR ∧ b = Event.printf "  Other errno: %d\n" [Arg.int e]))) ∧
    ((env.call 98).ret < 0 → (env.call 98).err = some e →
      ∃ pre b, (section_3_errno_switch h env p).trace = pre ++
        [Event.sysOpen "nonexistent_file_for_demo_9999.txt" (env.call 98).ret,
         Event.printf "open(nonexistent) returned -1, errno=%d\n" [Arg.int e],
         b] ∧
        ((e = h.ENOENT ∧ b = Event.printf "  ENOENT: no such file or directory\n" []) ∨
         (e = h.EACCES ∧ b = Event.printf "  EACCES: permission denied\n" []) ∨
         (e ≠ h.ENOENT ∧ e ≠ h.EACCES ∧ b = Event.printf "  Other errno: %d\n" [Arg.int e]))) := by
  refine ⟨?_, ?_⟩
  · intro hret herr
    simp [section_3_errno_switch, libc, hret, herr]
    split_ifs <;> simp_all
  · exact section_3_open_suffix h env p e

/-- C7: in `section_2_open`, when the creating `open` of `build/demo_open_ok.txt`
returns a negative descriptor with `errno = e`, the step prints the failure
message with the number `e`, goes straight on to the `open` of the nonexistent
file, and makes no `write` at all and no `close` of that descriptor.  When the
`open` succeeds, the step prints the byte count `w` if `write` returned `w ≥ 0`,
and the numeric `errno` if `write` returned a negative value. -/
theorem section_2_open_outcomes (env : Env) (p : Proc) (e : Int) :
    ((env.call 45).ret < 0 → (env.call 45).err = some e →
      (∃ rest, (section_2_open env p).trace = p.trace ++
        [Event.printf "\n=== 2) open() success then failure ===\n" [],
         Event.sysOpen "build/demo_open_ok.txt" (env.call 45).ret,
         Event.printf "open('%s') failed: errno=%d\n"
           [Arg.str "build/demo_open_ok.txt", Arg.int e],
         Event.sysOpen "definitely_not_existing_file_12345.txt" (env.call 60).ret] ++ rest) ∧
      (∀ fd text w, Event.sysWrite fd text w ∉ (section_2_open env ⟨p.errno, []⟩).trace) ∧
      Event.sysClose (env.call 45).ret ∉ (section_2_open env ⟨p.errno, []⟩).trace) ∧
    (0 ≤ (env.call 45).ret → 0 ≤ (env.call 48).ret →
      ∃ rest, (section_2_open env p).trace = p.trace ++
        [Event.printf "\n=== 2) open() success then failure ===\n" [],
         Event.sysOpen "build/demo_open_ok.txt" (env.call 45).ret,
         Event.sysWrite (env.call 45).ret "demo: write OK\n" (env.call 48).ret,
         Event.printf "created and wrote to '%s' (fd=%d, bytes=%zd)\n"
           [Arg.str "build/demo_open_ok.txt", Arg.int (env.call 45).ret,
            Arg.int (env.call 48).ret],
         Event.sysClose (env.call 45).ret,
         Event.sysOpen "definitely_not_existing_file_12345.txt" (env.call 60).ret] ++ rest) ∧
    (0 ≤ (env.call 45).ret → (env.call 48).ret < 0 → (env.call 48).err = some e →
      ∃ rest, (section_2_open env p).trace = p.trace ++
        [Event.printf "\n=== 2) open() success then failure ===\n" [],
         Event.sysOpen "build/demo_open_ok.txt" (env.call 45).ret,
         Event.sysWrite (env.call 45).ret "demo: write OK\n" (env.call 48).ret,
         Event.printf "write() returned -1, errno=%d\n" [Arg.int e],
         Event.sysClose (env.call 45).ret,
         Event.sysOpen "definitely_not_existing_file_12345.txt" (env.call 60).ret] ++ rest) := by
  refine ⟨?_, ?_, ?_⟩
  · intro hfd herr
    have hnot : ¬ (0 ≤ (env.call 45).ret) := not_le.mpr hfd
    refine ⟨?_, ?_, ?_⟩
    · simp [section_2_open, libc, hnot, herr]
      split_ifs <;> simp
    · intro fd text w
      simp [section_2_open, libc, hnot, herr]
      split_ifs <;> simp
    · simp [section_2_open, libc, hnot, herr]
      split_ifs with h2 <;> simp
      intro heq
      rw [heq] at hfd
      exact h2 hfd
  · intro hfd hw
    have hnot : ¬ ((env.call 48).ret < 0) := not_lt.mpr hw
    simp [section_2_open, libc, hfd, hnot]
    split_ifs <;> simp
  · intro hfd hw herr
    simp [section_2_open, libc, hfd, hw, herr]
    split_ifs <;> simp


/-! ## Framing: what a section appends does not depend on the events before it -/

theorem section_1_frame (env : Env) (q : Proc) :
    (section_1_getpid env q).trace = q.trace ++ (section_1_getpid env ⟨q.errno, []⟩).trace := by
  simp [section_1_getpid, libc]

theorem section_2_frame (env : Env) (q : Proc) :
    (section_2_open env q).trace = q.trace ++ (section_2_open env ⟨q.errno, []⟩).trace := by
  simp only [section_2_open, libc]
  split_ifs <;> simp

theorem section_3_frame (h : ErrnoH) (env : Env) (q : Proc) :
    (section_3_errno_switch h env q).trace =
      q.trace ++ (section_3_errno_switch h env ⟨q.errno, []⟩).trace := by
  simp only [section_3_errno_switch, libc]
  split_ifs <;> simp

theorem section_4_frame (h : ErrnoH) (env : Env) (q : Proc) :
    (section_4_errno_not_cleared h env q).trace =
      q.trace ++ (section_4_errno_not_cleared h env ⟨q.errno, []⟩).trace := by
  simp [section_4_errno_not_cleared, libc, setErrno]

theorem section_5_frame (env : Env) (q : Proc) :
    (section_5_getpriority env q).trace =
      q.trace ++ (section_5_getpriority env ⟨q.errno, []⟩).trace := by
  simp only [section_5_getpriority, libc, setErrno]
  split_ifs <;> simp

theorem section_6_frame (h : ErrnoH) (env : Env) (q : Proc) :
    (section_6_perror_strerror h env q).trace =
      q.trace ++ (section_6_perror_strerror h env ⟨q.errno, []⟩).trace := by
  simp only [section_6_perror_strerror, libc]
  split_ifs <;> simp

/-! ## The `errno` a section leaves does not depend on the events before it -/

theorem section_1_errno (env : Env) (q : Proc) :
    (section_1_getpid env q).errno = (section_1_getpid env ⟨q.errno, []⟩).errno := by
  simp [section_1_getpid, libc]

theorem section_2_errno (env : Env) (q : Proc) :
    (section_2_open env q).errno = (section_2_open env ⟨q.errno, []⟩).errno := by
  simp only [section_2_open, libc]
  split_ifs <;> simp

theorem section_3_errno (h : ErrnoH) (env : Env) (q : Proc) :
    (section_3_errno_switch h env q).errno =
      (section_3_errno_switch h env ⟨q.errno, []⟩).errno := by
  simp only [section_3_errno_switch, libc]
  split_ifs <;> simp

theorem section_4_errno (h : ErrnoH) (env : Env) (q : Proc) :
    (section_4_errno_not_cleared h env q).errno =
      (section_4_errno_not_cleared h env ⟨q.errno, []⟩).errno := by
  simp [section_4_errno_not_cleared, libc, setErrno]

theorem section_5_errno (env : Env) (q : Proc) :
    (section_5_getpriority env q).errno = (section_5_getpriority env ⟨q.errno, []⟩).errno := by
  simp only [section_5_getpriority, libc, setErrno]
  split_ifs <;> simp

/-! ## `main` -/

/-- C6: for every combination of outcomes of the library calls (return values
and `errno` stores), `main` prints its banner, then runs the six sections once
each in the order 1, 2, 3, 4, 5, 6 (every section entered with the `errno` the
statement before it left), then prints the closing "End" line, and returns exit
status 0. -/
theorem main_runs_every_section (h : ErrnoH) (env : Env) (p : Proc) :
    let s1 := section_1_getpid env ⟨((env.call 184).err).getD p.errno, []⟩
    let s2 := section_2_open env ⟨s1.errno, []⟩
    let s3 := section_3_errno_switch h env ⟨s2.errno, []⟩
    let s4 := section_4_errno_not_cleared h env ⟨s3.errno, []⟩
    let s5 := section_5_getpriority env ⟨s4.errno, []⟩
    let s6 := section_6_perror_strerror h env ⟨s5.errno, []⟩
    (main h env p).1 = 0 ∧
    (main h env p).2.trace = p.trace ++
      [Event.printf "Simple syscall error-handling demo (final)\n" []] ++
      s1.trace ++ s2.trace ++ s3.trace ++ s4.trace ++ s5.trace ++ s6.trace ++
      [Event.printf "\nEnd\n" []] := by
  intro s1 s2 s3 s4 s5 s6
  refine ⟨rfl, ?_⟩
  simp only [main]
  rw [show ∀ ev q, (libc env 193 ev q).trace = q.trace ++ [ev] from fun _ _ => rfl,
    section_6_frame, section_5_frame, section_4_frame, section_3_frame, section_2_frame,
    section_1_frame, section_5_errno, section_4_errno, section_3_errno, section_2_errno,
    section_1_errno]
  rfl

/-! ## Independence of the sections from the `errno` they start with -/

theorem section_1_errno_free (env : Env) (e1 e2 : Int) :
    (section_1_getpid env ⟨e1, []⟩).trace = (section_1_getpid env ⟨e2, []⟩).trace := by
  simp [section_1_getpid, libc]

theorem section_4_errno_free (h : ErrnoH) (env : Env) (e1 e2 : Int) :
    (section_4_errno_not_cleared h env ⟨e1, []⟩).trace =
      (section_4_errno_not_cleared h env ⟨e2, []⟩).trace := by
  simp [section_4_errno_not_cleared, libc, setErrno]

theorem section_5_errno_free (env : Env) (e1 e2 : Int) :
    (section_5_getpriority env ⟨e1, []⟩).trace = (section_5_getpriority env ⟨e2, []⟩).trace := by
  simp only [section_5_getpriority, libc, setErrno]

theorem section_2_errno_free (env : Env) (e1 e2 : Int)
    (h45 : (env.call 45).failureStoresErrno) (h48 : (env.call 48).failureStoresErrno)
    (h60 : (env.call 60).failureStoresErrno) :
    (section_2_open env ⟨e1, []⟩).trace = (section_2_open env ⟨e2, []⟩).trace := by
  unfold Outcome.failureStoresErrno at h45 h48 h60
  by_cases c60 : (env.call 60).ret < 0
  · obtain ⟨x60, hx60⟩ := Option.isSome_iff_exists.mp (h60 c60)
    by_cases c45 : (env.call 45).ret < 0
    · obtain ⟨x45, hx45⟩ := Option.isSome_iff_exists.mp (h45 c45)
      simp [section_2_open, libc, c60, c45, not_le.mpr c45, hx60, hx45]
    · by_cases c48 : (env.call 48).ret < 0
      · obtain ⟨x48, hx48⟩ := Option.isSome_iff_exists.mp (h48 c48)
        simp [section_2_open, libc, c60, c45, not_lt.mp c45, c48, hx60, hx48]
      · simp [section_2_open, libc, c60, c45, not_lt.mp c45, c48, hx60]
  · by_cases c45 : (env.call 45).ret < 0
    · obtain ⟨x45, hx45⟩ := Option.isSome_iff_exists.mp (h45 c45)
      simp [section_2_open, libc, c60, c45, not_le.mpr c45, hx45]
    · by_cases c48 : (env.call 48).ret < 0
      · obtain ⟨x48, hx48⟩ := Option.isSome_iff_exists.mp (h48 c48)
        simp [section_2_open, libc, c60, c45, not_lt.mp c45, c48, hx48]
      · simp [section_2_open, libc, c60, c45, not_lt.mp c45, c48]

theorem section_3_errno_free (h : ErrnoH) (env : Env) (e1 e2 : Int)
    (h79 : (env.call 79).failureStoresErrno) (h98 : (env.call 98).failureStoresErrno) :
    (section_3_errno_switch h env ⟨e1, []⟩).trace =
      (section_3_errno_switch h env ⟨e2, []⟩).trace := by
  unfold Outcome.failureStoresErrno at h79 h98
  by_cases c79 : (env.call 79).ret < 0
  · obtain ⟨x79, hx79⟩ := Option.isSome_iff_exists.mp (h79 c79)
    by_cases c98 : (env.call 98).ret < 0
    · obtain ⟨x98, hx98⟩ := Option.isSome_iff_exists.mp (h98 c98)
      simp only [section_3_errno_switch, libc, c79, c98, hx79, hx98, Option.getD_some, if_true]
    · simp only [section_3_errno_switch, libc, c79, c98, hx79, Option.getD_some, if_true,
        if_false]
  · by_cases c98 : (env.call 98).ret < 0
    · obtain ⟨x98, hx98⟩ := Option.isSome_iff_exists.mp (h98 c98)
      simp only [section_3_errno_switch, libc, c79, c98, hx98, Option.getD_some, if_true,
        if_false]
    · simp [section_3_errno_switch, libc, c79, c98]

theorem section_6_errno_free (h : ErrnoH) (env : Env) (e1 e2 : Int)
    (h157 : (env.call 157).failureStoresErrno) :
    (section_6_perror_strerror h env ⟨e1, []⟩).trace =
      (section_6_perror_strerror h env ⟨e2, []⟩).trace := by
  unfold Outcome.failureStoresErrno at h157
  by_cases c : (env.call 157).ret < 0
  · obtain ⟨x, hx⟩ := Option.isSome_iff_exists.mp (h157 c)
    simp only [section_6_perror_strerror, libc, c, hx, Option.getD_some, if_true]
  · simp only [section_6_perror_strerror, libc, c, if_false]
    split_ifs <;> simp

/-- C8: each of the six sections is independent of the `errno` value it starts
with.  Whatever ran before a section (any state `q`: any earlier events, any
`errno`), the section appends to the trace exactly the events it produces when
run in isolation from an arbitrary `errno` value `e`, for the same outcomes of
its own library calls; so the text `main` prints is its banner, the text of
each section run in isolation, and the closing line.  An outcome of a failing
`open`, `read` or `write` includes the error number the call stores in `errno`,
as POSIX requires of a call that returns a negative value. -/
theorem sections_independent_of_errno (h : ErrnoH) (env : Env) (q : Proc) (e : Int) :
    (section_1_getpid env q).trace = q.trace ++ (section_1_getpid env ⟨e, []⟩).trace ∧
    ((env.call 45).failureStoresErrno → (env.call 48).failureStoresErrno →
      (env.call 60).failureStoresErrno →
      (section_2_open env q).trace = q.trace ++ (section_2_open env ⟨e, []⟩).trace) ∧
    ((env.call 79).failureStoresErrno → (env.call 98).failureStoresErrno →
      (section_3_errno_switch h env q).trace =
        q.trace ++ (section_3_errno_switch h env ⟨e, []⟩).trace) ∧
    (section_4_errno_not_cleared h env q).trace =
      q.trace ++ (section_4_errno_not_cleared h env ⟨e, []⟩).trace ∧
    (section_5_getpriority env q).trace =
      q.trace ++ (section_5_getpriority env ⟨e, []⟩).trace ∧
    ((env.call 157).failureStoresErrno →
      (section_6_perror_strerror h env q).trace =
        q.trace ++ (section_6_perror_strerror h env ⟨e, []⟩).trace) ∧
    ((env.call 45).failureStoresErrno → (env.call 48).failureStoresErrno →
      (env.call 60).failureStoresErrno → (env.call 79).failureStoresErrno →
      (env.call 98).failureStoresErrno → (env.call 157).failureStoresErrno →
      (main h env q).2.trace = q.trace ++
        [Event.printf "Simple syscall error-handling demo (final)\n" []] ++
        (section_1_getpid env ⟨e, []⟩).trace ++
        (section_2_open env ⟨e, []⟩).trace ++
        (section_3_errno_switch h env ⟨e, []⟩).trace ++
        (section_4_errno_not_cleared h env ⟨e, []⟩).trace ++
        (section_5_getpriority env ⟨e, []⟩).trace ++
        (section_6_perror_strerror h env ⟨e, []⟩).trace ++
        [Event.printf "\nEnd\n" []]) := by
  refine ⟨?_, ?_, ?_, ?_, ?_, ?_, ?_⟩
  · rw [section_1_frame, section_1_errno_free env q.errno e]
  · intro h45 h48 h60
    rw [section_2_frame, section_2_errno_free env q.errno e h45 h48 h60]
  · intro h79 h98
    rw [section_3_frame, section_3_errno_free h env q.errno e h79 h98]
  · rw [section_4_frame, section_4_errno_free h env q.errno e]
  · rw [section_5_frame, section_5_errno_free env q.errno e]
  · intro h157
    rw [section_6_frame, section_6_errno_free h env q.errno e h157]
  · intro h45 h48 h60 h79 h98 h157
    simp only [main]
    rw [show ∀ ev r, (libc env 193 ev r).trace = r.trace ++ [ev] from fun _ _ => rfl,
      section_6_frame, section_5_frame, section_4_frame, section_3_frame, section_2_frame,
      section_1_frame,
      show ∀ ev r, (libc env 184 ev r).trace = r.trace ++ [ev] from fun _ _ => rfl,
      section_1_errno_free env _ e, section_2_errno_free env _ e h45 h48 h60,
      section_3_errno_free h env _ e h79 h98, section_4_errno_free h env _ e,
      section_5_errno_free env _ e, section_6_errno_free h env _ e h157]

/-- Witness of C8 on the run `envFailing` with the Linux constants: a section
entered after other events with `errno = 22` appends what it prints when run
alone from `errno = 0`. -/
theorem sections_independent_of_errno_witness :
    (section_2_open envFailing ⟨22, [Event.sysGetpid 4242]⟩).trace =
      [Event.sysGetpid 4242] ++ (section_2_open envFailing ⟨0, []⟩).trace ∧
    (section_3_errno_switch linux envFailing ⟨22, [Event.sysGetpid 4242]⟩).trace =
      [Event.sysGetpid 4242] ++ (section_3_errno_switch linux envFailing ⟨0, []⟩).trace ∧
    (section_6_perror_strerror linux envFailing ⟨22, [Event.sysGetpid 4242]⟩).trace =
      [Event.sysGetpid 4242] ++ (section_6_perror_strerror linux envFailing ⟨0, []⟩).trace :=
  ⟨(sections_independent_of_errno linux envFailing ⟨22, [Event.sysGetpid 4242]⟩ 0).2.1
      (by decide) (by decide) (by decide),
   (sections_independent_of_errno linux envFailing ⟨22, [Event.sysGetpid 4242]⟩ 0).2.2.1
      (by decide) (by decide),
   (sections_independent_of_errno linux envFailing ⟨22, [Event.sysGetpid 4242]⟩ 0).2.2.2.2.2.1
      (by decide)⟩


/-! ## File descriptors -/

/-- C10: no section leaks or double-closes a file descriptor.  On every path
through `section_2_open`, `section_3_errno_switch` and
`section_6_perror_strerror` the sequence of `open` and `close` calls is balanced
(`fdBalanced`: every `close` is of a descriptor that an earlier `open` returned
non-negative and that has not been closed since, and nothing is left open when
the section returns), and `close` is never called on a negative descriptor. -/
theorem sections_close_what_they_open (h : ErrnoH) (env : Env) (e : Int) :
    (fdBalanced [] (section_2_open env ⟨e, []⟩).trace = true ∧
      ∀ fd, Event.sysClose fd ∈ (section_2_open env ⟨e, []⟩).trace → 0 ≤ fd) ∧
    (fdBalanced [] (section_3_errno_switch h env ⟨e, []⟩).trace = true ∧
      ∀ fd, Event.sysClose fd ∈ (section_3_errno_switch h env ⟨e, []⟩).trace → 0 ≤ fd) ∧
    (fdBalanced [] (section_6_perror_strerror h env ⟨e, []⟩).trace = true ∧
      ∀ fd, Event.sysClose fd ∈ (section_6_perror_strerror h env ⟨e, []⟩).trace → 0 ≤ fd) := by
  refine ⟨⟨?_, ?_⟩, ⟨?_, ?_⟩, ⟨?_, ?_⟩⟩
  · simp only [section_2_open, libc]
    split_ifs <;> simp_all [fdBalanced]
  · intro fd
    simp only [section_2_open, libc]
    split_ifs <;> simp_all
    all_goals (rintro (rfl | rfl) <;> assumption)
  · simp only [section_3_errno_switch, libc]
    split_ifs <;> simp_all [fdBalanced]
  · intro fd
    simp only [section_3_errno_switch, libc]
    split_ifs <;> simp_all
  · simp only [section_6_perror_strerror, libc]
    split_ifs <;> simp_all [fdBalanced]
  · intro fd
    simp only [section_6_perror_strerror, libc]
    split_ifs <;> simp_all


/-! ## Witnesses and the classification of the failed `open` -/

/-- Witness of C9: on `envFailing` the failed `read` leaves `errno = 9 = EBADF`,
on `envEmfile` the failed `open` leaves `errno = 24`, which no label names. -/
theorem section_3_classification_witness :
    (∃ b rest, (section_3_errno_switch linux envFailing ⟨0, []⟩).trace = [] ++
        [Event.printf "\n=== 3) error-number handling with switch ===\n" [],
         Event.sysRead (-1) 8 (-1),
         Event.printf "read(-1,...) returned -1, errno=%d\n" [Arg.int 9],
         b,
         Event.sysOpen "nonexistent_file_for_demo_9999.txt" (-1)] ++ rest ∧
        (((9 : Int) = linux.EBADF ∧ b = Event.printf "  EBADF: bad file descriptor\n" []) ∨
         ((9 : Int) = linux.EINTR ∧ b = Event.printf "  EINTR: interrupted system call\n" []) ∨
         ((9 : Int) ≠ linux.EBADF ∧ (9 : Int) ≠ linux.EINTR ∧
            b = Event.printf "  Other errno: %d\n" [Arg.int 9]))) ∧
    (∃ pre b, (section_3_errno_switch linux envEmfile ⟨0, []⟩).trace = pre ++
        [Event.sysOpen "nonexistent_file_for_demo_9999.txt" (-1),
         Event.printf "open(nonexistent) returned -1, errno=%d\n" [Arg.int 24],
         b] ∧
        (((24 : Int) = linux.ENOENT ∧
            b = Event.printf "  ENOENT: no such file or directory\n" []) ∨
         ((24 : Int) = linux.EACCES ∧ b = Event.printf "  EACCES: permission denied\n" []) ∨
         ((24 : Int) ≠ linux.ENOENT ∧ (24 : Int) ≠ linux.EACCES ∧
            b = Event.printf "  Other errno: %d\n" [Arg.int 24]))) :=
  ⟨(section_3_classification linux envFailing ⟨0, []⟩ 9).1 (by decide) (by decide),
   (section_3_classification linux envEmfile ⟨0, []⟩ 24).2 (by decide) (by decide)⟩

/-- Counterexample to C3 as stated: on `envEmfile` the `open` of the nonexistent
path fails (returns -1) leaving `errno = 24` (`EMFILE`: the process has no free
descriptor), and the classification printed is the "Other errno" bucket. -/
theorem section_3_open_emfile_other :
    (envEmfile.call 98).ret < 0 ∧ (envEmfile.call 98).err = some 24 ∧
    (section_3_errno_switch linux envEmfile ⟨0, []⟩).trace =
      [Event.printf "\n=== 3) error-number handling with switch ===\n" [],
       Event.sysRead (-1) 8 (-1),
       Event.printf "read(-1,...) returned -1, errno=%d\n" [Arg.int 9],
       Event.printf "  EBADF: bad file descriptor\n" [],
       Event.sysOpen "nonexistent_file_for_demo_9999.txt" (-1),
       Event.printf "open(nonexistent) returned -1, errno=%d\n" [Arg.int 24],
       Event.printf "  Other errno: %d\n" [Arg.int 24]] :=
  ⟨by decide, by decide, by decide⟩

/-- C3 (amended): in `section_3_errno_switch`, whenever the `open` of the
nonexistent path fails leaving `errno = e`, the classification printed is the
"ENOENT: no such file or directory" bucket when `e = ENOENT`, the
"EACCES: permission denied" bucket when `e = EACCES`, and the "Other errno"
bucket carrying `e` exactly when `e` is neither of the two. -/
theorem section_3_open_bucket (h : ErrnoH) (env : Env) (p : Proc) (e : Int)
    (hret : (env.call 98).ret < 0) (herr : (env.call 98).err = some e) :
    ∃ pre b, (section_3_errno_switch h env p).trace = pre ++
      [Event.sysOpen "nonexistent_file_for_demo_9999.txt" (env.call 98).ret,
       Event.printf "open(nonexistent) returned -1, errno=%d\n" [Arg.int e],
       b] ∧
      (e = h.ENOENT → b = Event.printf "  ENOENT: no such file or directory\n" []) ∧
      (e = h.EACCES → b = Event.printf "  EACCES: permission denied\n" []) ∧
      (b = Event.printf "  Other errno: %d\n" [Arg.int e] ↔ (e ≠ h.ENOENT ∧ e ≠ h.EACCES)) := by
  obtain ⟨pre, b, htr, hcase⟩ := section_3_open_suffix h env p e hret herr
  refine ⟨pre, b, htr, ?_⟩
  have hlab := h.open_labels
  rcases hcase with ⟨he, hb⟩ | ⟨he, hb⟩ | ⟨h1, h2, hb⟩
  · subst he hb
    simp [hlab]
  · subst he hb
    simp [hlab, Ne.symm hlab]
  · subst hb
    simp [h1, h2]

/-- Witness of the amended C3 on `envFailing`, where the failed `open` leaves
`errno = 2 = ENOENT`. -/
theorem section_3_open_bucket_witness :
    ∃ pre b, (section_3_errno_switch linux envFailing ⟨0, []⟩).trace = pre ++
      [Event.sysOpen "nonexistent_file_for_demo_9999.txt" (-1),
       Event.printf "open(nonexistent) returned -1, errno=%d\n" [Arg.int 2],
       b] ∧
      ((2 : Int) = linux.ENOENT → b = Event.printf "  ENOENT: no such file or directory\n" []) ∧
      ((2 : Int) = linux.EACCES → b = Event.printf "  EACCES: permission denied\n" []) ∧
      (b = Event.printf "  Other errno: %d\n" [Arg.int 2] ↔
        ((2 : Int) ≠ linux.ENOENT ∧ (2 : Int) ≠ linux.EACCES)) :=
  section_3_open_bucket linux envFailing ⟨0, []⟩ 2 (by decide) (by decide)

/-- Witness of C7: the creating `open` fails with `errno = 2` on `envFailing`,
succeeds with a full `write` on `envWriteOk`, and succeeds with a `write` that
fails with `errno = 28` on `envWriteFails`. -/
theorem section_2_open_outcomes_witness :
    ((∃ rest, (section_2_open envFailing ⟨0, []⟩).trace = [] ++
        [Event.printf "\n=== 2) open() success then failure ===\n" [],
         Event.sysOpen "build/demo_open_ok.txt" (-1),
         Event.printf "open('%s') failed: errno=%d\n"
           [Arg.str "build/demo_open_ok.txt", Arg.int 2],
         Event.sysOpen "definitely_not_existing_file_12345.txt" (-1)] ++ rest) ∧
      (∀ fd text w, Event.sysWrite fd text w ∉ (section_2_open envFailing ⟨0, []⟩).trace) ∧
      Event.sysClose (-1) ∉ (section_2_open envFailing ⟨0, []⟩).trace) ∧
    (∃ rest, (section_2_open envWriteOk ⟨0, []⟩).trace = [] ++
        [Event.printf "\n=== 2) open() success then failure ===\n" [],
         Event.sysOpen "build/demo_open_ok.txt" 3,
         Event.sysWrite 3 "demo: write OK\n" 15,
         Event.printf "created and wrote to '%s' (fd=%d, bytes=%zd)\n"
           [Arg.str "build/demo_open_ok.txt", Arg.int 3, Arg.int 15],
         Event.sysClose 3,
         Event.sysOpen "definitely_not_existing_file_12345.txt" (-1)] ++ rest) ∧
    (∃ rest, (section_2_open envWriteFails ⟨0, []⟩).trace = [] ++
        [Event.printf "\n=== 2) open() success then failure ===\n" [],
         Event.sysOpen "build/demo_open_ok.txt" 3,
         Event.sysWrite 3 "demo: write OK\n" (-1),
         Event.printf "write() returned -1, errno=%d\n" [Arg.int 28],
         Event.sysClose 3,
         Event.sysOpen "definitely_not_existing_file_12345.txt" (-1)] ++ rest) :=
  ⟨(section_2_open_outcomes envFailing ⟨0, []⟩ 2).1 (by decide) (by decide),
   (section_2_open_outcomes envWriteOk ⟨0, []⟩ 2).2.1 (by decide) (by decide),
   (section_2_open_outcomes envWriteFails ⟨0, []⟩ 28).2.2 (by decide) (by decide) (by decide)⟩

/-- Witness of C10 on `envWriteOk`: descriptor 3 is opened, written and closed
once, the nonexistent file is not opened, and the bookkeeping is balanced. -/
theorem sections_close_what_they_open_witness :
    Event.sysClose 3 ∈ (section_2_open envWriteOk ⟨0, []⟩).trace ∧
    fdBalanced [] (section_2_open envWriteOk ⟨0, []⟩).trace = true ∧ (0 : Int) ≤ 3 :=
  ⟨by decide, (sections_close_what_they_open linux envWriteOk 0).1.1,
   (sections_close_what_they_open linux envWriteOk 0).1.2 3 (by decide)⟩

/-- The bookkeeping `fdBalanced` does reject a leak, a `close` of a descriptor
that was never opened, a double `close`, and a `close` after a failed `open`. -/
theorem fdBalanced_rejects :
    fdBalanced [] [Event.sysOpen "f" 3] = false ∧
    fdBalanced [] [Event.sysClose 3] = false ∧
    fdBalanced [] [Event.sysOpen "f" 3, Event.sysClose 3, Event.sysClose 3] = false ∧
    fdBalanced [] [Event.sysOpen "f" (-1), Event.sysClose (-1)] = false ∧
    fdBalanced [] [Event.sysOpen "f" 3, Event.sysClose 3] = true := by
  decide

/-- Why the independence of section 2 needs the failing `open` to store an error
number: were a failing `open` to leave `errno` alone, the number printed would be
the one the section started with. -/
theorem section_2_stale_errno :
    (section_2_open ⟨fun _ => ⟨-1, none⟩, fun _ => "", fun _ => ""⟩ ⟨0, []⟩).trace ≠
      (section_2_open ⟨fun _ => ⟨-1, none⟩, fun _ => "", fun _ => ""⟩ ⟨5, []⟩).trace := by
  decide

end SyscallErrors

namespace DetectingLibcVersion

/-! ## The `confstr` check of the version probe -/

theorem toLong_zero (bits : Nat) : toLong bits 0 = 0 := by
  simp [toLong]

theorem toLong_of_small (bits n : Nat) (hn : n < 2 ^ bits) (h1 : n < 2 ^ (bits - 1)) :
    toLong bits n = (n : Int) := by
  unfold toLong
  rw [Nat.mod_eq_of_lt hn]
  simp [h1]

theorem toLong_of_large (bits n : Nat) (hn : n < 2 ^ bits) (h1 : 2 ^ (bits - 1) ≤ n) :
    toLong bits n < 0 := by
  unfold toLong
  rw [Nat.mod_eq_of_lt hn, if_neg (not_lt.mpr h1)]
  have hcast : ((n : Nat) : Int) < ((2 ^ bits : Nat) : Int) := Int.ofNat_lt.mpr hn
  omega

theorem cstr_of_nul_free_prefix (s rest : List Nat) (hs : ∀ b ∈ s, b ≠ 0) :
    cstr (s ++ 0 :: rest) = some s := by
  have htake : (s ++ 0 :: rest).takeWhile (fun b => decide (b ≠ 0)) = s := by
    induction s with
    | nil => simp
    | cons a t ih =>
      have ha : a ≠ 0 := hs a (List.mem_cons_self a t)
      have ht : ∀ b ∈ t, b ≠ 0 := fun b hb => hs b (List.mem_cons_of_mem a hb)
      have hd : decide (a ≠ 0) = true := decide_eq_true ha
      simp only [List.cons_append, List.takeWhile_cons, hd, if_true, ih ht]
  have hmem : 0 ∈ s ++ 0 :: rest := by simp
  simp only [cstr, hmem, if_true, htake]

theorem cstr_of_no_nul (l : List Nat) (h : 0 ∉ l) : cstr l = none := by
  simp [cstr, h]

theorem cstr_some_nul_free (l s : List Nat) (h : cstr l = some s) : ∀ b ∈ s, b ≠ 0 := by
  unfold cstr at h
  split_ifs at h
  injection h with h
  subst h
  intro b hb
  have := List.mem_takeWhile_imp hb
  simpa using this

/-- Counterexample to C2 as stated: when `confstr` reports size 1 and writes only
the terminating NUL, the probe prints the version line of the `confstr` check
with an empty version string, and not the fallback message. -/
theorem main_prints_empty_version :
    envEmptyVersion.confstr_size = 1 ∧
    (envEmptyVersion.confstr_fill 1).take 1 = [0] ∧
    main envEmptyVersion = Except.ok (0,
      [Event.printf "Libc version (compile-time) detected by __GLIBC__ is : %d.%d\n"
         [Arg.int 2, Arg.int 39],
       Event.printf "Libc version (runtime) detected by gnu_get_libc_version is : %s \n"
         [Arg.str [50, 46, 51, 57]],
       Event.printf "Libc version (runtime) detected by confstr() is : %s \n" [Arg.str []]]) :=
  ⟨rfl, rfl, rfl⟩

/-- C2 (amended): the result of the probe, for every platform.  With `n` the
size `confstr(_CS_GNU_LIBC_VERSION, NULL, 0)` returns:
* when `n = 0` the probe prints its two first lines and the fallback message
  "This system is not using glibc", and exits with status 0;
* when `n` is negative as a `long` (`2 ^ (LONG_BIT - 1) ≤ n`), or larger than
  the stack can take, or the second `confstr` call left no NUL in the buffer,
  the run has no defined result;
* otherwise the probe prints its two first lines and the version line carrying
  the bytes `s` of the buffer before its first NUL, and exits with status 0;
  `s` is empty exactly when the first byte of the buffer is NUL.
So a run that exits prints the fallback message exactly when `n = 0` and a
version line exactly when `n ≠ 0`, and the version string may be empty. -/
theorem confstr_check (env : Env) :
    let n := env.confstr_size
    let buffer := (env.confstr_fill n).take n
    let head : List Event :=
      (if env.GLIBC ≠ 0 then
        [Event.printf "Libc version (compile-time) detected by __GLIBC__ is : %d.%d\n"
          [Arg.int env.GLIBC, Arg.int env.GLIBC_MINOR]]
      else
        [Event.printf "This program has not been compiled with glibc" []]) ++
      [Event.printf "Libc version (runtime) detected by gnu_get_libc_version is : %s \n"
        [Arg.str env.gnu_get_libc_version]]
    (n = 0 →
      main env = Except.ok (0, head ++ [Event.printf "This system is not using glibc \n" []])) ∧
    (2 ^ (env.LONG_BIT - 1) ≤ n → main env = Except.error Fault.negativeArrayBound) ∧
    (0 < n → n < 2 ^ (env.LONG_BIT - 1) → env.stack_avail < n →
      main env = Except.error Fault.stackOverflow) ∧
    (0 < n → n < 2 ^ (env.LONG_BIT - 1) → n ≤ env.stack_avail → 0 ∉ buffer →
      main env = Except.error Fault.unterminatedString) ∧
    (0 < n → n < 2 ^ (env.LONG_BIT - 1) → n ≤ env.stack_avail →
      ∀ s rest, buffer = s ++ 0 :: rest → (∀ b ∈ s, b ≠ 0) →
        main env = Except.ok (0, head ++
          [Event.printf "Libc version (runtime) detected by confstr() is : %s \n" [Arg.str s]]) ∧
        (s = [] ↔ buffer.head? = some 0)) ∧
    (∀ st out, main env = Except.ok (st, out) →
      st = 0 ∧
      (Event.printf "This system is not using glibc \n" [] ∈ out ↔ n = 0) ∧
      ((∃ s, Event.printf "Libc version (runtime) detected by confstr() is : %s \n"
          [Arg.str s] ∈ out) ↔ n ≠ 0)) := by
  intro n buffer head
  have hlt : n < 2 ^ env.LONG_BIT := env.confstr_size_lt
  refine ⟨?_, ?_, ?_, ?_, ?_, ?_⟩
  · intro h0
    have hz : toLong env.LONG_BIT env.confstr_size = 0 := by
      rw [show env.confstr_size = 0 from h0]
      exact toLong_zero _
    simp only [main, hz, if_true]
  · intro hbig
    have hneg := toLong_of_large env.LONG_BIT n hlt hbig
    have hne : toLong env.LONG_BIT env.confstr_size ≠ 0 := ne_of_lt hneg
    have hneg2 : toLong env.LONG_BIT env.confstr_size < 0 := hneg
    simp only [main, hne, hneg2, if_true, if_false]
  · intro hpos hsmall hstack
    have heq : toLong env.LONG_BIT env.confstr_size = (n : Int) :=
      toLong_of_small env.LONG_BIT n hlt hsmall
    have hne : ((n : Nat) : Int) ≠ 0 := by omega
    have hnn : ¬ ((n : Nat) : Int) < 0 := by omega
    have hst : (env.stack_avail : Int) < (n : Int) := by omega
    simp only [main, heq, hne, hnn, hst, if_true, if_false]
  · intro hpos hsmall hstack hnul
    have heq : toLong env.LONG_BIT env.confstr_size = (n : Int) :=
      toLong_of_small env.LONG_BIT n hlt hsmall
    have hne : ((n : Nat) : Int) ≠ 0 := by omega
    have hnn : ¬ ((n : Nat) : Int) < 0 := by omega
    have hst : ¬ (env.stack_avail : Int) < (n : Int) := by omega
    have hc : cstr (List.take n (env.confstr_fill n)) = none := cstr_of_no_nul _ hnul
    simp only [main, heq, hne, hnn, hst, if_false, Int.toNat_ofNat, hc]
  · intro hpos hsmall hstack s rest hbuf hs
    have heq : toLong env.LONG_BIT env.confstr_size = (n : Int) :=
      toLong_of_small env.LONG_BIT n hlt hsmall
    have hne : ((n : Nat) : Int) ≠ 0 := by omega
    have hnn : ¬ ((n : Nat) : Int) < 0 := by omega
    have hst : ¬ (env.stack_avail : Int) < (n : Int) := by omega
    have hc : cstr (List.take n (env.confstr_fill n)) = some s := by
      rw [show List.take n (env.confstr_fill n) = s ++ 0 :: rest from hbuf]
      exact cstr_of_nul_free_prefix s rest hs
    refine ⟨?_, ?_⟩
    · simp only [main, heq, hne, hnn, hst, if_false, Int.toNat_ofNat, hc]
    · rw [show buffer = s ++ 0 :: rest from hbuf]
      cases s with
      | nil => simp
      | cons a t =>
        have ha : a ≠ 0 := hs a (List.mem_cons_self a t)
        simp [ha]
  · intro st out hmain
    by_cases h0 : n = 0
    · have hz : toLong env.LONG_BIT env.confstr_size = 0 := by
        rw [show env.confstr_size = 0 from h0]
        exact toLong_zero _
      simp only [main, hz, if_true, Except.ok.injEq, Prod.mk.injEq] at hmain
      obtain ⟨rfl, rfl⟩ := hmain
      refine ⟨rfl, ?_, ?_⟩
      · simp [h0]
      · simp only [h0, ne_eq, not_true_eq_false, iff_false, not_exists]
        intro s
        split_ifs <;> simp
    · by_cases hsmall : n < 2 ^ (env.LONG_BIT - 1)
      · have heq : toLong env.LONG_BIT env.confstr_size = (n : Int) :=
          toLong_of_small env.LONG_BIT n hlt hsmall
        have hne : ((n : Nat) : Int) ≠ 0 := by omega
        have hnn : ¬ ((n : Nat) : Int) < 0 := by omega
        by_cases hst : (env.stack_avail : Int) < (n : Int)
        · simp only [main, heq, hne, hnn, hst, if_true, if_false] at hmain
          exact absurd hmain (by simp)
        · cases hc : cstr (List.take n (env.confstr_fill n)) with
          | none =>
            simp only [main, heq, hne, hnn, hst, if_false, Int.toNat_ofNat, hc] at hmain
            exact absurd hmain (by simp)
          | some s =>
            simp only [main, heq, hne, hnn, hst, if_false, Int.toNat_ofNat, hc,
              Except.ok.injEq, Prod.mk.injEq] at hmain
            obtain ⟨rfl, rfl⟩ := hmain
            refine ⟨rfl, ?_, ?_⟩
            · simp only [h0, iff_false]
              split_ifs <;> simp
            · simp only [ne_eq, h0, not_false_eq_true, iff_true]
              exact ⟨s, by simp⟩
      · have hneg := toLong_of_large env.LONG_BIT n hlt (not_lt.mp hsmall)
        have hne : toLong env.LONG_BIT env.confstr_size ≠ 0 := ne_of_lt hneg
        have hneg2 : toLong env.LONG_BIT env.confstr_size < 0 := hneg
        simp only [main, hne, hneg2, if_true, if_false] at hmain
        exact absurd hmain (by simp)

/-- Witness of the amended C2: no configuration string on `envNoGlibc` (fallback
message), a size that is negative as a `long` on `envNegativeSize`, a size above
the stack on `envHugeSize`, a buffer without NUL on `envNoFill`, and `glibc 2.39`
on `envGlibc` (version line with the ten bytes before the NUL). -/
theorem confstr_check_witness :
    main envNoGlibc = Except.ok (0,
      [Event.printf "Libc version (compile-time) detected by __GLIBC__ is : %d.%d\n"
         [Arg.int 2, Arg.int 39],
       Event.printf "Libc version (runtime) detected by gnu_get_libc_version is : %s \n"
         [Arg.str [50, 46, 51, 57]],
       Event.printf "This system is not using glibc \n" []]) ∧
    main envNegativeSize = Except.error Fault.negativeArrayBound ∧
    main envHugeSize = Except.error Fault.stackOverflow ∧
    main envNoFill = Except.error Fault.unterminatedString ∧
    main envGlibc = Except.ok (0,
      [Event.printf "Libc version (compile-time) detected by __GLIBC__ is : %d.%d\n"
         [Arg.int 2, Arg.int 39],
       Event.printf "Libc version (runtime) detected by gnu_get_libc_version is : %s \n"
         [Arg.str [50, 46, 51, 57]],
       Event.printf "Libc version (runtime) detected by confstr() is : %s \n"
         [Arg.str [103, 108, 105, 98, 99, 32, 50, 46, 51, 57]]]) :=
  ⟨(confstr_check envNoGlibc).1 (by decide),
   (confstr_check envNegativeSize).2.1 (by decide),
   (confstr_check envHugeSize).2.2.1 (by decide) (by decide) (by decide),
   (confstr_check envNoFill).2.2.2.1 (by decide) (by decide) (by decide) (by decide),
   ((confstr_check envGlibc).2.2.2.2.1 (by decide) (by decide) (by decide)
      [103, 108, 105, 98, 99, 32, 50, 46, 51, 57] [] (by decide) (by decide)).1⟩

end DetectingLibcVersion
